import Mathlib

/-!
# Verification of the iterative ICU load-forecasting engine

Shallow embedding of `src/ML_models/Load_prediction/predictor.py` (the
functions `get_confidence_level`, `predict_next_hour_enhanced` and
`predict_next_6_hours`) together with proofs of the specification claims.

Modelling conventions:
* Timestamps are integers counting whole hours since the Unix epoch
  (1970-01-01 00:00, a Thursday).  `pd.Timedelta(hours=1)` is `+ 1`;
  `Timestamp.hour` is `emod 24`; `Timestamp.dayofweek` (Monday = 0) is
  `(ediv 24 + 3) emod 7`.  All observation timestamps in the claims are
  whole hours, so this granularity is faithful.
* The numeric tower of the Python code (numpy float64) is modelled by `ℚ`.
  Python's built-in `round` (IEEE round-half-to-even, "banker's rounding")
  is modelled exactly by `pyRound` below.
* pandas DataFrames with columns `timestamp`/`count` are lists of `Row`.
  `iloc[-k]` is `getD (length - k)`; `sort_values('timestamp')` is a
  sort by timestamp; `tail(50)` is `drop (length - 50)`.
* Python `dict`s are association lists (`List (κ × ℚ)`); `d.get(k, v)` is
  `(lookup k d).getD v`; `d[k]` is `lookup k d` with a `KeyError` on
  `none`.
* Fallible Python code is an `Except PredError` value.  The spec's error
  taxonomy maps onto the concrete exceptions of the code:
  `dataInsufficient` is the `IndexError` of `recent_data['count'].iloc[-3]`
  on a window of fewer than 3 rows (the spec's `DataInsufficientError`);
  `unknownConfidenceInterval` is the `KeyError` of
  `prediction_intervals[confidence_level]` (the spec's
  `UnknownConfidenceIntervalError`); `missingFeature` is the `KeyError`
  of `pd.DataFrame([features])[feature_cols]` when an artifact names a
  feature the builder never produces.
-/

namespace LoadPrediction

/-- One row of the `recent_data` DataFrame: a `(timestamp, count)` pair.
Timestamps are whole hours since the epoch. -/
structure Row where
  timestamp : ℤ
  count : ℚ
deriving DecidableEq, Repr

/-- `pandas.Timestamp.hour` for a whole-hour timestamp. -/
def tsHour (t : ℤ) : ℤ := t.emod 24

/-- `pandas.Timestamp.dayofweek` (Monday = 0) for a whole-hour timestamp;
the epoch day 1970-01-01 was a Thursday, i.e. weekday 3. -/
def tsDayOfWeek (t : ℤ) : ℤ := ((t.ediv 24) + 3).emod 7

/-- Python's built-in `round` on an exactly representable value:
round half to even ("banker's rounding").  `round(6.5) = 6`,
`round(4.5) = 4`, `round(8.5) = 8`, `round(7.5) = 8`. -/
def pyRound (q : ℚ) : ℤ :=
  if q - (⌊q⌋ : ℚ) < 1/2 then ⌊q⌋
  else if 1/2 < q - (⌊q⌋ : ℚ) then ⌊q⌋ + 1
  else if ⌊q⌋ % 2 = 0 then ⌊q⌋ else ⌊q⌋ + 1

/-- Python's `round(x, 2)` (two decimal places, ties to even). -/
def roundTo2 (q : ℚ) : ℚ := (pyRound (q * 100) : ℚ) / 100

/-- The `model_data['contexts']` dictionary: three contextual
mean-absolute-error tables keyed by hour, load-level bucket, and weekday
(`predictor.py` lines 17, 29, 30). -/
structure Contexts where
  hour : List (ℤ × ℚ)
  load_level : List (String × ℚ)
  day_of_week : List (ℤ × ℚ)
deriving DecidableEq, Repr

/-- The unpickled `model_data` dictionary (`predictor.py` lines 55-60).
The trained regressor is opaque: a total function from the ordered
feature values to a raw predicted value. -/
structure ModelData where
  predict : List ℚ → ℚ
  feature_cols : List String
  prediction_intervals : List (String × ℚ)
  contexts : Contexts
  test_mae : ℚ
  high_load_threshold : ℚ

/-- `get_confidence_level` (`predictor.py` lines 10-41):
blend the three contextual MAEs (falling back to `base_mae` for an absent
key) and classify with the fixed 0.85 / 1.15 thresholds. -/
def get_confidence_level (hour : ℤ) (load_level : ℤ) (day_of_week : ℤ)
    (contexts : Contexts) (base_mae : ℚ) : String × ℚ :=
  let hour_mae := ((contexts.hour.lookup hour).getD base_mae)
  let load_cat :=
    if load_level ≤ 3 then "low"
    else if load_level ≤ 6 then "medium"
    else if load_level ≤ 10 then "high"
    else "extreme"
  let load_mae := ((contexts.load_level.lookup load_cat).getD base_mae)
  let dow_mae := ((contexts.day_of_week.lookup day_of_week).getD base_mae)
  let context_mae := (hour_mae + load_mae + dow_mae) / 3
  if context_mae < base_mae * 0.85 then ("high", context_mae)
  else if context_mae < base_mae * 1.15 then ("medium", context_mae)
  else ("low", context_mae)

/-- `recent_data['timestamp'].iloc[-1]` (`predictor.py` line 63):
the timestamp of the last row (0 on an empty frame, unreachable behind
the length guard). -/
def lastTimestamp (w : List Row) : ℤ :=
  match w.getLast? with
  | some r => r.timestamp
  | none => 0

/-- `next_timestamp = last_timestamp + pd.Timedelta(hours=1)`
(`predictor.py` line 64). -/
def nextTimestampOf (w : List Row) : ℤ := lastTimestamp w + 1

/-- An optional feature (`predictor.py` lines 82-95): added to the
`features` dict only when its name appears in `feature_cols`. -/
def optFeature (cols : List String) (name : String) (v : ℚ) :
    List (String × ℚ) :=
  if name ∈ cols then [(name, v)] else []

/-- The `features` dictionary built by `predict_next_hour_enhanced`
(`predictor.py` lines 66-95), in insertion order.  `counts.getD (n-k) 0`
is `recent_data['count'].iloc[-k]`. -/
def buildFeatures (w : List Row) (m : ModelData) : List (String × ℚ) :=
  let counts := w.map Row.count
  let n := counts.length
  let lag_1 := counts.getD (n - 1) 0
  let lag_2 := counts.getD (n - 2) 0
  let lag_3 := counts.getD (n - 3) 0
  let next_ts := nextTimestampOf w
  let hour := tsHour next_ts
  let dow := tsDayOfWeek next_ts
  let last3 := counts.drop (n - 3)
  [("lag_1", lag_1), ("lag_2", lag_2), ("lag_3", lag_3),
   ("hour", (hour : ℚ)), ("day_of_week", (dow : ℚ)),
   ("is_weekend", if 5 ≤ dow then 1 else 0),
   ("high_load_recent", if m.high_load_threshold ≤ lag_1 then 1 else 0)]
  ++ optFeature m.feature_cols "is_evening_rush"
       (if 17 ≤ hour ∧ hour ≤ 20 then 1 else 0)
  ++ optFeature m.feature_cols "is_night"
       (if 0 ≤ hour ∧ hour ≤ 6 then 1 else 0)
  ++ optFeature m.feature_cols "avg_last_3h"
       (last3.sum / (last3.length : ℚ))
  ++ optFeature m.feature_cols "trend_last_3h" (lag_1 - lag_3)
  ++ optFeature m.feature_cols "same_hour_yesterday"
       (if 24 ≤ n then counts.getD (n - 24) 0
        else counts.sum / (n : ℚ))

/-- `X_pred = pd.DataFrame([features])[feature_cols]` (`predictor.py`
line 98): select the feature values in the order of `feature_cols`;
a column absent from the features dict is a `KeyError` naming it. -/
def buildX (cols : List String) (features : List (String × ℚ)) :
    Except String (List ℚ) :=
  match cols with
  | [] => .ok []
  | c :: cs =>
    match features.lookup c with
    | none => .error c
    | some v =>
      match buildX cs features with
      | .error e => .error e
      | .ok vs => .ok (v :: vs)

/-- The error taxonomy of the forecasting core (spec section 7), mapped
onto the concrete exceptions the Python code raises (see module header). -/
inductive PredError where
  | dataInsufficient
  | missingFeature (name : String)
  | unknownConfidenceInterval (label : String)
deriving DecidableEq, Repr

/-- The `reasoning` sub-dictionary of a prediction (`predictor.py`
lines 129-137). -/
structure Reasoning where
  hour : ℤ
  is_night : ℚ
  is_evening_rush : ℚ
  recent_trend : String
  high_load_recent : Bool
deriving DecidableEq, Repr

/-- The dictionary returned by `predict_next_hour_enhanced`
(`predictor.py` lines 120-138). -/
structure ForecastPoint where
  timestamp : ℤ
  predicted_arrivals : ℤ
  lower_bound : ℤ
  upper_bound : ℤ
  confidence_level : String
  confidence_interval : String
  expected_error : ℚ
  reasoning : Reasoning
deriving DecidableEq, Repr

/-- Assembly of the result record of `predict_next_hour_enhanced`
(`predictor.py` lines 100-138) once feature selection and the interval
lookup have succeeded.  `max 0` is the clamp of line 100, `pyRound` is
`int(round(...))` of lines 103/107/108. -/
def mkForecastPoint (w : List Row) (m : ModelData) (cl : String)
    (features : List (String × ℚ)) (xs : List ℚ) (interval_width : ℚ) :
    ForecastPoint :=
  let raw_prediction := max 0 (m.predict xs)
  let prediction := pyRound raw_prediction
  let lower_bound := max 0 (pyRound (raw_prediction - interval_width))
  let upper_bound := pyRound (raw_prediction + interval_width)
  let hour := tsHour (nextTimestampOf w)
  let dow := tsDayOfWeek (nextTimestampOf w)
  let cc := get_confidence_level hour prediction dow m.contexts m.test_mae
  { timestamp := nextTimestampOf w
    predicted_arrivals := prediction
    lower_bound := lower_bound
    upper_bound := upper_bound
    confidence_level := cc.1
    confidence_interval := cl
    expected_error := roundTo2 cc.2
    reasoning :=
      { hour := tsHour (nextTimestampOf w)
        is_night := (features.lookup "is_night").getD 0
        is_evening_rush := (features.lookup "is_evening_rush").getD 0
        recent_trend :=
          if 0 < (features.lookup "trend_last_3h").getD 0 then "increasing"
          else "decreasing"
        high_load_recent := (features.lookup "high_load_recent").getD 0 ≠ 0 } }

/-- `predict_next_hour_enhanced` (`predictor.py` lines 43-138).
The guard `w.length < 3` is where `iloc[-1]/[-2]/[-3]` of lines 63-68
raise `IndexError` on a short window; feature-column selection
(line 98) fails before the interval lookup (line 106), as in the code. -/
def predict_next_hour_enhanced (w : List Row) (m : ModelData)
    (cl : String) : Except PredError ForecastPoint :=
  if w.length < 3 then .error .dataInsufficient
  else
    match buildX m.feature_cols (buildFeatures w m) with
    | .error c => .error (.missingFeature c)
    | .ok xs =>
      match m.prediction_intervals.lookup cl with
      | none => .error (.unknownConfidenceInterval cl)
      | some interval_width =>
        .ok (mkForecastPoint w m cl (buildFeatures w m) xs interval_width)

/-- The ordering used by `working_data.sort_values('timestamp')`
(`predictor.py` line 163). -/
def rowLE (a b : Row) : Prop := a.timestamp ≤ b.timestamp

/-- Strict timestamp order on rows. -/
def rowLT (a b : Row) : Prop := a.timestamp < b.timestamp

instance : DecidableRel rowLE := fun a b =>
  inferInstanceAs (Decidable (a.timestamp ≤ b.timestamp))

instance : DecidableRel rowLT := fun a b =>
  inferInstanceAs (Decidable (a.timestamp < b.timestamp))

instance : IsTotal Row rowLE := ⟨fun a b => le_total a.timestamp b.timestamp⟩

instance : IsTrans Row rowLE := ⟨fun _ _ _ hab hbc => le_trans hab hbc⟩

/-- `working_data.sort_values('timestamp').reset_index(drop=True)`
(`predictor.py` line 163). -/
def sortByTimestamp (w : List Row) : List Row := List.insertionSort rowLE w

/-- The `new_row` DataFrame of `predictor.py` lines 183-186: the
prediction's timestamp and integer count as an observation row. -/
def newRowOf (pred : ForecastPoint) : Row :=
  ⟨pred.timestamp, (pred.predicted_arrivals : ℚ)⟩

/-- Lines 189-191 of `predictor.py`: keep only the last 50 rows
(`tail(50).reset_index(drop=True)`) when the length exceeds 50. -/
def truncate50 (w : List Row) : List Row :=
  if 50 < w.length then w.drop (w.length - 50) else w

/-- Lines 182-191 of `predictor.py`: append the new prediction as an
observation row (`pd.concat(..., ignore_index=True)`) and truncate. -/
def appendPrediction (w : List Row) (pred : ForecastPoint) : List Row :=
  truncate50 (w ++ [newRowOf pred])

/-- The body of the `for hour in range(1, 7)` loop of
`predict_next_6_hours` (`predictor.py` lines 172-191), as a recursion on
the number of remaining steps.  A failing step aborts the whole
forecast: no partial sequence is returned. -/
def forecastLoop (m : ModelData) (cl : String) :
    ℕ → List Row → Except PredError (List ForecastPoint)
  | 0, _ => .ok []
  | k + 1, w =>
    match predict_next_hour_enhanced w m cl with
    | .error e => .error e
    | .ok pred =>
      match forecastLoop m cl k (appendPrediction w pred) with
      | .error e => .error e
      | .ok rest => .ok (pred :: rest)

/-- `predict_next_6_hours` (`predictor.py` lines 141-194), value level:
`recent_data.copy()` is value semantics here (the heap model below keeps
the frame effects); `pd.to_datetime` on an already-parsed timestamp
column is the identity on the values. -/
def predict_next_6_hours (recent_data : List Row) (m : ModelData)
    (cl : String) : Except PredError (List ForecastPoint) :=
  forecastLoop m cl 6 (sortByTimestamp recent_data)

/-- The feature names `predict_next_hour_enhanced` can place in its
`features` dictionary (`predictor.py` lines 71-95): the seven
unconditional features and the five optional ones. -/
def knownFeatures : List String :=
  ["lag_1", "lag_2", "lag_3", "hour", "day_of_week", "is_weekend",
   "high_load_recent", "is_evening_rush", "is_night", "avg_last_3h",
   "trend_last_3h", "same_hour_yesterday"]

/-- The ModelArtifact load contract (spec sections 3 and 6): the
artifact's feature names are features the builder can produce, so that
the zero-probed predictor is invocable.  An artifact violating this
fails at load time (`ArtifactLoadError`), not per forecast request. -/
def WellFormedModel (m : ModelData) : Prop :=
  ∀ c ∈ m.feature_cols, c ∈ knownFeatures

instance (m : ModelData) : Decidable (WellFormedModel m) :=
  inferInstanceAs (Decidable (∀ c ∈ m.feature_cols, c ∈ knownFeatures))

/-- Projection of the first forecast step of a 6-hour forecast result:
`(predicted_count, lower_bound, upper_bound)`, `none` when the forecast
failed or returned no point. -/
def stepOne (r : Except PredError (List ForecastPoint)) :
    Option (ℤ × ℤ × ℤ) :=
  match r with
  | .ok (p :: _) => some (p.predicted_arrivals, p.lower_bound, p.upper_bound)
  | _ => none

/-! ## Heap model of the DataFrame frame effects

`predict_next_6_hours` receives its DataFrame by reference.  To state the
frame claim (the caller's window is never mutated) the DataFrames live in
an explicit store: a list of frames addressed by index.  `copy()`,
`sort_values(...).reset_index(...)`, `pd.concat(...)` and
`tail(50).reset_index(...)` allocate fresh frames; the in-place column
assignment `working_data['timestamp'] = pd.to_datetime(...)` (line 162)
writes to its frame's cell — on the copy, not on the caller's frame. -/

/-- The store of live DataFrames, addressed by position. -/
abbrev Heap : Type := List (List Row)

/-- Dereference a DataFrame (the empty frame for a dangling reference). -/
def heapGet (h : Heap) (r : ℕ) : List Row := h.getD r []

/-- Allocate a fresh DataFrame, returning its reference. -/
def heapAlloc (h : Heap) (f : List Row) : ℕ × Heap :=
  (h.length, h ++ [f])

/-- Overwrite the DataFrame a reference points to (in-place mutation). -/
def heapSet (h : Heap) (r : ℕ) (f : List Row) : Heap := h.set r f

/-- `pd.to_datetime` applied to an already-parsed timestamp column:
identity on the values (the claims' windows hold parsed timestamps). -/
def toDatetimeCol (f : List Row) : List Row := f

/-- Line 187 of `predictor.py`:
`pd.concat([working_data, new_row], ignore_index=True)` allocates a
fresh frame extending the working frame by the prediction row. -/
def concatFrame (h : Heap) (wr : ℕ) (pred : ForecastPoint) : ℕ × Heap :=
  heapAlloc h (heapGet h wr ++ [⟨pred.timestamp, (pred.predicted_arrivals : ℚ)⟩])

/-- Lines 189-191 of `predictor.py`: when the working frame exceeds 50
rows, `tail(50).reset_index(drop=True)` allocates a fresh truncated
frame; otherwise the reference is unchanged. -/
def truncFrame (a : ℕ × Heap) : ℕ × Heap :=
  if 50 < (heapGet a.2 a.1).length then
    heapAlloc a.2
      ((heapGet a.2 a.1).drop ((heapGet a.2 a.1).length - 50))
  else a

/-- The `for hour in range(1, 7)` loop of `predict_next_6_hours` over the
store (`predictor.py` lines 172-191).  `predict_next_hour_enhanced` only
reads its frame (lines 63-98 are lookups and aggregations, never
assignments), so it takes the dereferenced value. -/
def heapLoop (m : ModelData) (cl : String) :
    ℕ → Heap → ℕ → Except PredError (List ForecastPoint) × Heap
  | 0, h, _ => (.ok [], h)
  | k + 1, h, wr =>
    match predict_next_hour_enhanced (heapGet h wr) m cl with
    | .error e => (.error e, h)
    | .ok pred =>
      match heapLoop m cl k (truncFrame (concatFrame h wr pred)).2
          (truncFrame (concatFrame h wr pred)).1 with
      | (.error e, h') => (.error e, h')
      | (.ok rest, h') => (.ok (pred :: rest), h')

/-- Line 161 of `predictor.py`: `working_data = recent_data.copy()`
allocates a fresh copy of the caller's frame. -/
def copyFrame (h0 : Heap) (r : ℕ) : ℕ × Heap := heapAlloc h0 (heapGet h0 r)

/-- Line 162 of `predictor.py`:
`working_data['timestamp'] = pd.to_datetime(working_data['timestamp'])`
writes the parsed column in place on the frame it is applied to. -/
def parseTimestampCol (a : ℕ × Heap) : ℕ × Heap :=
  (a.1, heapSet a.2 a.1 (toDatetimeCol (heapGet a.2 a.1)))

/-- Line 163 of `predictor.py`:
`working_data = working_data.sort_values('timestamp').reset_index(drop=True)`
allocates the sorted frame and rebinds the working reference to it. -/
def sortFrame (a : ℕ × Heap) : ℕ × Heap :=
  heapAlloc a.2 (sortByTimestamp (heapGet a.2 a.1))

/-- `predict_next_6_hours` over the store (`predictor.py` lines
160-194). -/
def predict_next_6_hours_heap (m : ModelData) (cl : String) (h0 : Heap)
    (r : ℕ) : Except PredError (List ForecastPoint) × Heap :=
  heapLoop m cl 6 (sortFrame (parseTimestampCol (copyFrame h0 r))).2
    (sortFrame (parseTimestampCol (copyFrame h0 r))).1

deriving instance DecidableEq for Except

/-! ## Concrete fixtures used by witnesses and counterexamples -/

/-- The artifact of the spec's end-to-end scenario (spec section 8):
`interval_widths = ("90%" to 2)` and a point-predictor returning the
constant `6.5` for every input. -/
def scenarioModel : ModelData :=
  { predict := fun _ => 6.5
    feature_cols := ["lag_1", "lag_2", "lag_3", "hour", "day_of_week",
                     "is_weekend", "high_load_recent"]
    prediction_intervals := [("90%", 2)]
    contexts := { hour := [], load_level := [], day_of_week := [] }
    test_mae := 1
    high_load_threshold := 8 }

/-- The window of the spec's end-to-end scenario,
`[(t-2h,5), (t-1h,7), (t,6)]` at `t = 2`. -/
def scenarioWindow : List Row := [⟨0, 5⟩, ⟨1, 7⟩, ⟨2, 6⟩]

/-- An artifact offering exactly the labels "90%", "95%" and "99%"
(spec section 8, unknown-interval-label scenario). -/
def threeLabelModel : ModelData :=
  { scenarioModel with
    prediction_intervals := [("90%", 2), ("95%", 3), ("99%", 4)] }

/-- A 5-entry window with counts `[2, 4, 6, 8, 10]` (spec section 8,
fallback-feature scenario). -/
def fiveWindow : List Row := [⟨0, 2⟩, ⟨1, 4⟩, ⟨2, 6⟩, ⟨3, 8⟩, ⟨4, 10⟩]

/-- An artifact requesting the `same_hour_yesterday` feature. -/
def sameHourModel : ModelData :=
  { scenarioModel with
    feature_cols := ["lag_1", "lag_2", "lag_3", "hour", "day_of_week",
                     "is_weekend", "high_load_recent", "same_hour_yesterday"] }

/-- A 24-entry window of consecutive hourly observations with count `i`
at hour `i`. -/
def hourlyWindow24 : List Row :=
  (List.range 24).map (fun i => ⟨(i : ℤ), (i : ℚ)⟩)

/-- `scenarioWindow` with its first two rows transposed (out of order). -/
def shuffledWindow : List Row := [⟨1, 7⟩, ⟨0, 5⟩, ⟨2, 6⟩]

/-- A 2-entry window: too short to forecast from. -/
def shortWindow : List Row := [⟨0, 5⟩, ⟨1, 7⟩]

/-- The forecast point the scenario artifact produces at hour `t`
(raw 6.5, width 2, empty context tables, base error 1). -/
def scenarioPoint (t : ℤ) : ForecastPoint :=
  { timestamp := t
    predicted_arrivals := 6
    lower_bound := 4
    upper_bound := 8
    confidence_level := "medium"
    confidence_interval := "90%"
    expected_error := 1
    reasoning := { hour := t, is_night := 0, is_evening_rush := 0,
                   recent_trend := "decreasing", high_load_recent := false } }

/-- The full 6-point forecast of the scenario artifact on the scenario
window. -/
def scenarioPoints : List ForecastPoint :=
  [scenarioPoint 3, scenarioPoint 4, scenarioPoint 5, scenarioPoint 6,
   scenarioPoint 7, scenarioPoint 8]

/-- Context tables whose three lookups all yield 0.85, so the blended
error is exactly `0.85 × base` for `base = 1`. -/
def boundaryContexts : Contexts :=
  { hour := [(0, 0.85)], load_level := [("low", 0.85)],
    day_of_week := [(0, 0.85)] }

/-! ## Lemmas -/

-- Batteries seals the `Rat` field operations; reopening them lets
-- concrete forecasts be evaluated by `decide`.
unseal Rat.add Rat.sub Rat.mul Rat.inv Rat.ofScientific

theorem floor_le_pyRound (q : ℚ) : ⌊q⌋ ≤ pyRound q := by
  unfold pyRound; split_ifs <;> omega

theorem pyRound_le_floor_add_one (q : ℚ) : pyRound q ≤ ⌊q⌋ + 1 := by
  unfold pyRound; split_ifs <;> omega

theorem pyRound_mono {q r : ℚ} (h : q ≤ r) : pyRound q ≤ pyRound r := by
  rcases lt_or_eq_of_le (Int.floor_mono h) with hf | hf
  · calc pyRound q ≤ ⌊q⌋ + 1 := pyRound_le_floor_add_one q
      _ ≤ ⌊r⌋ := by omega
      _ ≤ pyRound r := floor_le_pyRound r
  · unfold pyRound
    rw [← hf]
    split_ifs <;> first | omega | linarith

theorem pyRound_nonneg {q : ℚ} (h : 0 ≤ q) : 0 ≤ pyRound q :=
  le_trans (Int.floor_nonneg.mpr h) (floor_le_pyRound q)

theorem lookup_mem {α β : Type} [BEq α] [LawfulBEq α] {l : List (α × β)}
    {k : α} {b : β} (h : l.lookup k = some b) : (k, b) ∈ l := by
  induction l with
  | nil => simp [List.lookup] at h
  | cons p t ih =>
    rw [List.lookup_cons] at h
    rcases hp : (k == p.1) with _ | _
    · simp [hp] at h
      exact List.mem_cons_of_mem _ (ih h)
    · simp [hp] at h
      have : k = p.1 := by simpa using hp
      subst this
      simp [← h]

theorem lookup_optFeature_self {cols : List String} {name : String} {v : ℚ}
    (h : name ∈ cols) : (optFeature cols name v).lookup name = some v := by
  simp [optFeature, h]

theorem lookup_optFeature_ne {cols : List String} {name c : String} {v : ℚ}
    (h : c ≠ name) : (optFeature cols name v).lookup c = none := by
  unfold optFeature
  split <;> simp [List.lookup_cons, beq_false_of_ne h]

theorem lookup_buildFeatures_isSome (w : List Row) (m : ModelData)
    {c : String} (hknown : c ∈ knownFeatures) (hmem : c ∈ m.feature_cols) :
    ((buildFeatures w m).lookup c).isSome := by
  simp only [knownFeatures, List.mem_cons, List.not_mem_nil, or_false] at hknown
  rcases hknown with rfl | rfl | rfl | rfl | rfl | rfl | rfl | rfl | rfl | rfl | rfl | rfl <;>
    simp [buildFeatures, List.lookup_append, List.lookup_cons,
      lookup_optFeature_self hmem, lookup_optFeature_ne, Option.or]

theorem buildX_ok (features : List (String × ℚ)) :
    ∀ (cols : List String), (∀ c ∈ cols, (features.lookup c).isSome) →
      ∃ xs, buildX cols features = .ok xs := by
  intro cols
  induction cols with
  | nil => exact fun _ => ⟨[], rfl⟩
  | cons c cs ih =>
    intro hall
    obtain ⟨v, hv⟩ := Option.isSome_iff_exists.mp (hall c (List.mem_cons_self c cs))
    obtain ⟨xs, hxs⟩ := ih (fun d hd => hall d (List.mem_cons_of_mem _ hd))
    exact ⟨v :: xs, by simp [buildX, hv, hxs]⟩

theorem mkForecastPoint_timestamp (w : List Row) (m : ModelData) (cl : String)
    (fs : List (String × ℚ)) (xs : List ℚ) (wd : ℚ) :
    (mkForecastPoint w m cl fs xs wd).timestamp = nextTimestampOf w := rfl

theorem mkForecastPoint_predicted (w : List Row) (m : ModelData) (cl : String)
    (fs : List (String × ℚ)) (xs : List ℚ) (wd : ℚ) :
    (mkForecastPoint w m cl fs xs wd).predicted_arrivals =
      pyRound (max 0 (m.predict xs)) := rfl

theorem mkForecastPoint_lower (w : List Row) (m : ModelData) (cl : String)
    (fs : List (String × ℚ)) (xs : List ℚ) (wd : ℚ) :
    (mkForecastPoint w m cl fs xs wd).lower_bound =
      max 0 (pyRound (max 0 (m.predict xs) - wd)) := rfl

theorem mkForecastPoint_upper (w : List Row) (m : ModelData) (cl : String)
    (fs : List (String × ℚ)) (xs : List ℚ) (wd : ℚ) :
    (mkForecastPoint w m cl fs xs wd).upper_bound =
      pyRound (max 0 (m.predict xs) + wd) := rfl

theorem mkForecastPoint_bounds (w : List Row) (m : ModelData) (cl : String)
    (fs : List (String × ℚ)) (xs : List ℚ) {wd : ℚ} (hwd : 0 ≤ wd) :
    0 ≤ (mkForecastPoint w m cl fs xs wd).lower_bound ∧
    (mkForecastPoint w m cl fs xs wd).lower_bound ≤
      (mkForecastPoint w m cl fs xs wd).predicted_arrivals ∧
    (mkForecastPoint w m cl fs xs wd).predicted_arrivals ≤
      (mkForecastPoint w m cl fs xs wd).upper_bound := by
  rw [mkForecastPoint_lower, mkForecastPoint_predicted, mkForecastPoint_upper]
  have hraw : (0 : ℚ) ≤ max 0 (m.predict xs) := le_max_left _ _
  refine ⟨le_max_left _ _, max_le (pyRound_nonneg hraw) ?_, ?_⟩
  · exact pyRound_mono (by linarith)
  · exact pyRound_mono (by linarith)

theorem predict_ok_inv {w : List Row} {m : ModelData} {cl : String}
    {p : ForecastPoint} (h : predict_next_hour_enhanced w m cl = .ok p) :
    ∃ xs wd, buildX m.feature_cols (buildFeatures w m) = .ok xs ∧
      m.prediction_intervals.lookup cl = some wd ∧
      p = mkForecastPoint w m cl (buildFeatures w m) xs wd := by
  unfold predict_next_hour_enhanced at h
  split at h
  · simp at h
  · split at h
    · simp at h
    · split at h
      · simp at h
      · exact ⟨_, _, by assumption, by assumption, (Except.ok.injEq _ _ ▸ h).symm⟩

theorem predict_ok {w : List Row} {m : ModelData} {cl : String} {wd : ℚ}
    (h3 : 3 ≤ w.length) (hwf : WellFormedModel m)
    (hl : m.prediction_intervals.lookup cl = some wd) :
    ∃ p, predict_next_hour_enhanced w m cl = .ok p ∧
      p.timestamp = lastTimestamp w + 1 := by
  obtain ⟨xs, hxs⟩ := buildX_ok (buildFeatures w m) m.feature_cols
    (fun c hc => lookup_buildFeatures_isSome w m (hwf c hc) hc)
  refine ⟨mkForecastPoint w m cl (buildFeatures w m) xs wd, ?_, rfl⟩
  unfold predict_next_hour_enhanced
  rw [if_neg (by omega), hxs, hl]

theorem predict_err {w : List Row} {m : ModelData} {cl : String}
    (h3 : 3 ≤ w.length) (hwf : WellFormedModel m)
    (hl : m.prediction_intervals.lookup cl = none) :
    predict_next_hour_enhanced w m cl =
      .error (.unknownConfidenceInterval cl) := by
  obtain ⟨xs, hxs⟩ := buildX_ok (buildFeatures w m) m.feature_cols
    (fun c hc => lookup_buildFeatures_isSome w m (hwf c hc) hc)
  unfold predict_next_hour_enhanced
  rw [if_neg (by omega), hxs, hl]

theorem getLast?_drop_of_lt {α : Type} (l : List α) (k : ℕ)
    (h : k < l.length) : (l.drop k).getLast? = l.getLast? := by
  rw [List.getLast?_eq_getElem?, List.getLast?_eq_getElem?,
    List.getElem?_drop, List.length_drop]
  congr 1
  omega

theorem length_appendPrediction (w : List Row) (p : ForecastPoint)
    (h3 : 3 ≤ w.length) : 3 ≤ (appendPrediction w p).length := by
  unfold appendPrediction truncate50
  split
  · simp only [List.length_drop]
    omega
  · simp only [List.length_append, List.length_cons, List.length_nil]
    omega

theorem lastTimestamp_of_getLast? {w : List Row} {r : Row}
    (h : w.getLast? = some r) : lastTimestamp w = r.timestamp := by
  unfold lastTimestamp
  rw [h]

theorem lastTimestamp_appendPrediction (w : List Row) (p : ForecastPoint) :
    lastTimestamp (appendPrediction w p) = p.timestamp := by
  have h : (appendPrediction w p).getLast? = some (newRowOf p) := by
    unfold appendPrediction truncate50
    split
    · rw [getLast?_drop_of_lt _ _ (by omega), List.getLast?_concat]
    · rw [List.getLast?_concat]
  rw [lastTimestamp_of_getLast? h]
  rfl

theorem forecastLoop_ok {m : ModelData} {cl : String} {wd : ℚ}
    (hwf : WellFormedModel m)
    (hl : m.prediction_intervals.lookup cl = some wd) :
    ∀ (k : ℕ) (w : List Row), 3 ≤ w.length →
      ∃ ps, forecastLoop m cl k w = .ok ps ∧ ps.length = k ∧
        ∀ i (hi : i < ps.length),
          (ps.get ⟨i, hi⟩).timestamp = lastTimestamp w + (i + 1) := by
  intro k
  induction k with
  | zero =>
    intro w _
    exact ⟨[], rfl, rfl, fun i hi => absurd hi (by simp)⟩
  | succ k ih =>
    intro w h3
    obtain ⟨p, hp, hts⟩ := predict_ok h3 hwf hl
    obtain ⟨ps, hps, hlen, htimes⟩ :=
      ih (appendPrediction w p) (length_appendPrediction w p h3)
    refine ⟨p :: ps, ?_, by simp [hlen], ?_⟩
    · unfold forecastLoop
      rw [hp]
      dsimp only
      rw [hps]
    · intro i hi
      cases i with
      | zero => simpa using hts
      | succ j =>
        have hj : j < ps.length := by simpa using hi
        have hjt := htimes j hj
        rw [lastTimestamp_appendPrediction, hts] at hjt
        simp only [List.get_cons_succ]
        rw [hjt]
        push_cast
        ring

theorem forecastLoop_bounds {m : ModelData} {cl : String}
    (hw : ∀ pr ∈ m.prediction_intervals, 0 ≤ pr.2) :
    ∀ (k : ℕ) (w : List Row) (ps : List ForecastPoint),
      forecastLoop m cl k w = .ok ps → ∀ p ∈ ps,
        0 ≤ p.lower_bound ∧ p.lower_bound ≤ p.predicted_arrivals ∧
          p.predicted_arrivals ≤ p.upper_bound := by
  intro k
  induction k with
  | zero =>
    intro w ps h p hp
    unfold forecastLoop at h
    simp only [Except.ok.injEq] at h
    subst h
    exact absurd hp (by simp)
  | succ k ih =>
    intro w ps h p hp
    unfold forecastLoop at h
    cases hpred : predict_next_hour_enhanced w m cl with
    | error e => simp [hpred] at h
    | ok q =>
      rw [hpred] at h
      dsimp only at h
      cases hrest : forecastLoop m cl k (appendPrediction w q) with
      | error e => simp [hrest] at h
      | ok rest =>
        rw [hrest] at h
        simp only [Except.ok.injEq] at h
        subst h
        rcases List.mem_cons.mp hp with rfl | hmem
        · obtain ⟨xs, wd, _, hlk, hpeq⟩ := predict_ok_inv hpred
          rw [hpeq]
          exact mkForecastPoint_bounds _ _ _ _ _ (hw (cl, wd) (lookup_mem hlk))
        · exact ih _ rest hrest p hmem

theorem eq_of_perm_of_strictSorted :
    ∀ {l₁ l₂ : List Row}, l₁.Perm l₂ → l₁.Pairwise rowLT →
      l₂.Pairwise rowLT → l₁ = l₂ := by
  intro l₁
  induction l₁ with
  | nil =>
    intro l₂ hp _ _
    exact (hp.symm.eq_nil).symm
  | cons a t ih =>
    intro l₂ hp h1 h2
    cases l₂ with
    | nil => exact absurd hp.eq_nil (by simp)
    | cons b t₂ =>
      have hab : a = b := by
        by_contra hne
        have hamem : a ∈ b :: t₂ := hp.mem_iff.mp (List.mem_cons_self a t)
        have hbmem : b ∈ a :: t := hp.mem_iff.mpr (List.mem_cons_self b t₂)
        have ha2 : a ∈ t₂ := by
          rcases List.mem_cons.mp hamem with h | h
          · exact absurd h hne
          · exact h
        have hb1 : b ∈ t := by
          rcases List.mem_cons.mp hbmem with h | h
          · exact absurd h.symm hne
          · exact h
        have hlt1 : rowLT a b := (List.pairwise_cons.mp h1).1 b hb1
        have hlt2 : rowLT b a := (List.pairwise_cons.mp h2).1 a ha2
        exact absurd hlt1 (not_lt_of_gt hlt2)
      subst hab
      rw [ih hp.cons_inv (List.pairwise_cons.mp h1).2
        (List.pairwise_cons.mp h2).2]

theorem pairwise_lt_of_sorted_nodup {l : List Row}
    (hs : l.Pairwise rowLE) (hn : (l.map Row.timestamp).Nodup) :
    l.Pairwise rowLT := by
  have hn' : l.Pairwise (fun a b => a.timestamp ≠ b.timestamp) := by
    rw [List.Nodup, List.pairwise_map] at hn
    exact hn
  exact (hs.and hn').imp (fun hab => lt_of_le_of_ne hab.1 hab.2)

theorem sortByTimestamp_eq_of_perm {w₁ w₂ : List Row} (hperm : w₁.Perm w₂)
    (hnd : (w₁.map Row.timestamp).Nodup) :
    sortByTimestamp w₁ = sortByTimestamp w₂ := by
  have h1 : (sortByTimestamp w₁).Perm w₁ := List.perm_insertionSort _ _
  have h2 : (sortByTimestamp w₂).Perm w₂ := List.perm_insertionSort _ _
  have hp : (sortByTimestamp w₁).Perm (sortByTimestamp w₂) :=
    h1.trans (hperm.trans h2.symm)
  have hnd₁ : ((sortByTimestamp w₁).map Row.timestamp).Nodup :=
    ((h1.map Row.timestamp).nodup_iff).mpr hnd
  have hnd₂ : ((sortByTimestamp w₂).map Row.timestamp).Nodup :=
    ((h2.map Row.timestamp).nodup_iff).mpr
      (((hperm.map Row.timestamp).nodup_iff).mp hnd)
  exact eq_of_perm_of_strictSorted hp
    (pairwise_lt_of_sorted_nodup (List.sorted_insertionSort rowLE w₁) hnd₁)
    (pairwise_lt_of_sorted_nodup (List.sorted_insertionSort rowLE w₂) hnd₂)

theorem forecastLoop_err {m : ModelData} {cl : String} {w : List Row}
    {e : PredError} (k : ℕ)
    (hp : predict_next_hour_enhanced w m cl = .error e) :
    forecastLoop m cl (k + 1) w = .error e := by
  unfold forecastLoop
  rw [hp]

/-! ## Claims -/

/-- C3: for every initial window with at least 3 entries (sorted
ascending, the ObservationWindow invariant) and every artifact whose
feature names the builder can produce and whose interval table contains
the requested label, the iterative forecaster returns exactly 6 points,
and the point at position `i` carries timestamp `lastTimestamp w + i + 1`
— so the timestamps are strictly increasing by exactly one hour and the
first is one hour after the last input observation. -/
theorem claim3_six_hourly_points (w : List Row) (m : ModelData)
    (cl : String) (wd : ℚ) (h3 : 3 ≤ w.length) (hwf : WellFormedModel m)
    (hl : m.prediction_intervals.lookup cl = some wd)
    (hsorted : List.Sorted rowLE w) :
    ∃ ps, predict_next_6_hours w m cl = .ok ps ∧ ps.length = 6 ∧
      ∀ i (hi : i < ps.length),
        (ps.get ⟨i, hi⟩).timestamp = lastTimestamp w + (i + 1) := by
  unfold predict_next_6_hours
  rw [sortByTimestamp, hsorted.insertionSort_eq]
  exact forecastLoop_ok hwf hl 6 w h3

/-- C4: every forecast point of a successful 6-hour forecast over an
artifact with non-negative interval widths satisfies
`0 ≤ lower_bound ≤ predicted_count ≤ upper_bound`. -/
theorem claim4_interval_ordering (w : List Row) (m : ModelData)
    (cl : String) (ps : List ForecastPoint) (p : ForecastPoint)
    (hw : ∀ pr ∈ m.prediction_intervals, 0 ≤ pr.2)
    (hok : predict_next_6_hours w m cl = .ok ps) (hp : p ∈ ps) :
    0 ≤ p.lower_bound ∧ p.lower_bound ≤ p.predicted_arrivals ∧
      p.predicted_arrivals ≤ p.upper_bound :=
  forecastLoop_bounds hw 6 (sortByTimestamp w) ps hok p hp

/-- C5: on a window of at least 3 entries and a well-formed artifact,
the single-step predictor fails with the unknown-confidence-interval
error if and only if the requested label is absent from the artifact's
interval table. -/
theorem claim5_unknown_interval_iff (w : List Row) (m : ModelData)
    (cl : String) (h3 : 3 ≤ w.length) (hwf : WellFormedModel m) :
    predict_next_hour_enhanced w m cl =
        .error (.unknownConfidenceInterval cl) ↔
      m.prediction_intervals.lookup cl = none := by
  constructor
  · intro h
    cases hlk : m.prediction_intervals.lookup cl with
    | none => rfl
    | some wd =>
      obtain ⟨p, hp, _⟩ := predict_ok h3 hwf hlk
      rw [hp] at h
      simp at h
  · intro h
    exact predict_err h3 hwf h

/-- C6: a window of fewer than 3 entries makes the 6-hour forecast fail
with the data-insufficiency error, and no forecast sequence is
produced. -/
theorem claim6_data_insufficient (w : List Row) (m : ModelData)
    (cl : String) (hshort : w.length < 3) :
    predict_next_6_hours w m cl = .error .dataInsufficient ∧
      ∀ ps, predict_next_6_hours w m cl ≠ .ok ps := by
  have hlen : (sortByTimestamp w).length < 3 := by
    rw [sortByTimestamp, List.length_insertionSort]
    exact hshort
  have hp : predict_next_hour_enhanced (sortByTimestamp w) m cl =
      .error .dataInsufficient := by
    unfold predict_next_hour_enhanced
    rw [if_pos hlen]
  have h6 : predict_next_6_hours w m cl = .error .dataInsufficient :=
    forecastLoop_err 5 hp
  exact ⟨h6, fun ps hok => by rw [h6] at hok; exact Except.noConfusion hok⟩

/-- C9: the 6-hour forecast of a window with at least 3 entries and
pairwise-distinct timestamps is invariant under any permutation of its
rows, because the forecaster sorts its working copy by timestamp before
the first step. -/
theorem claim9_permutation_invariant (w₁ w₂ : List Row) (m : ModelData)
    (cl : String) (h3 : 3 ≤ w₁.length) (hperm : w₁.Perm w₂)
    (hnd : (w₁.map Row.timestamp).Nodup) :
    predict_next_6_hours w₁ m cl = predict_next_6_hours w₂ m cl := by
  unfold predict_next_6_hours
  rw [sortByTimestamp_eq_of_perm hperm hnd]

theorem lookup_buildFeatures_same_hour (w : List Row) (m : ModelData)
    (hmem : "same_hour_yesterday" ∈ m.feature_cols) :
    (buildFeatures w m).lookup "same_hour_yesterday" =
      some (if 24 ≤ w.length then (w.map Row.count).getD (w.length - 24) 0
            else (w.map Row.count).sum / (w.length : ℚ)) := by
  unfold buildFeatures
  simp only [List.lookup_append, lookup_optFeature_self hmem,
    lookup_optFeature_ne
      (show ("same_hour_yesterday" : String) ≠ "is_evening_rush" by decide),
    lookup_optFeature_ne
      (show ("same_hour_yesterday" : String) ≠ "is_night" by decide),
    lookup_optFeature_ne
      (show ("same_hour_yesterday" : String) ≠ "avg_last_3h" by decide),
    lookup_optFeature_ne
      (show ("same_hour_yesterday" : String) ≠ "trend_last_3h" by decide)]
  simp [List.lookup_cons, List.length_map]

theorem lastTimestamp_eq_getD {w : List Row} (hne : w ≠ []) :
    lastTimestamp w = (w.map Row.timestamp).getD (w.length - 1) 0 := by
  have hlt : w.length - 1 < w.length := by
    cases w with
    | nil => exact absurd rfl hne
    | cons a t => simp
  unfold lastTimestamp
  rw [List.getLast?_eq_getElem?, List.getElem?_eq_getElem hlt]
  dsimp only
  rw [List.getD_eq_getElem?_getD, List.getElem?_map,
    List.getElem?_eq_getElem hlt]
  rfl

/-- C7: on a window of at least 3 and fewer than 24 entries, an artifact
requesting `same_hour_yesterday` receives the arithmetic mean of all the
window's counts as that feature's value. -/
theorem claim7_fallback_mean (w : List Row) (m : ModelData)
    (h3 : 3 ≤ w.length) (h24 : w.length < 24)
    (hmem : "same_hour_yesterday" ∈ m.feature_cols) :
    (buildFeatures w m).lookup "same_hour_yesterday" =
      some ((w.map Row.count).sum / (w.length : ℚ)) := by
  rw [lookup_buildFeatures_same_hour w m hmem, if_neg (by omega)]

/-- C10: on a window of at least 24 entries, an artifact requesting
`same_hour_yesterday` receives the count at position `length − 24`
(the 24th-most-recent row), whatever the rows' timestamps are; when the
window consists of consecutive hourly observations, that position's
timestamp is exactly 24 hours before the forecast target. -/
theorem claim10_same_hour_positional (w : List Row) (m : ModelData)
    (h24 : 24 ≤ w.length)
    (hmem : "same_hour_yesterday" ∈ m.feature_cols) :
    (buildFeatures w m).lookup "same_hour_yesterday" =
        some ((w.map Row.count).getD (w.length - 24) 0) ∧
      ((∀ i, i < w.length → (w.map Row.timestamp).getD i 0 =
          (w.map Row.timestamp).getD 0 0 + i) →
        (w.map Row.timestamp).getD (w.length - 24) 0 =
          nextTimestampOf w - 24) := by
  constructor
  · rw [lookup_buildFeatures_same_hour w m hmem, if_pos h24]
  · intro hcons
    have hne : w ≠ [] := by
      intro h
      rw [h] at h24
      simp at h24
    have h1 := hcons (w.length - 24) (by omega)
    have h2 := hcons (w.length - 1) (by omega)
    unfold nextTimestampOf
    rw [lastTimestamp_eq_getD hne, h2, h1]
    omega

theorem heapGet_heapAlloc {h : Heap} {f : List Row} {r : ℕ}
    (hr : r < h.length) : heapGet (heapAlloc h f).2 r = heapGet h r := by
  unfold heapGet heapAlloc
  exact List.getD_append h [f] [] r hr

theorem length_heapAlloc (h : Heap) (f : List Row) :
    (heapAlloc h f).2.length = h.length + 1 := by
  simp [heapAlloc]

theorem heapGet_heapSet_ne {h : Heap} {i : ℕ} {f : List Row} {r : ℕ}
    (hne : i ≠ r) : heapGet (heapSet h i f) r = heapGet h r := by
  unfold heapGet heapSet
  rw [List.getD_eq_getElem?_getD, List.getD_eq_getElem?_getD,
    List.getElem?_set_ne hne]

theorem truncFrame_frame {a : ℕ × Heap} {r : ℕ} (hr : r < a.2.length) :
    heapGet (truncFrame a).2 r = heapGet a.2 r ∧
      a.2.length ≤ (truncFrame a).2.length := by
  unfold truncFrame
  split
  · exact ⟨heapGet_heapAlloc hr, by rw [length_heapAlloc]; omega⟩
  · exact ⟨rfl, le_refl _⟩

theorem heapLoop_frame (m : ModelData) (cl : String) :
    ∀ (k : ℕ) (h : Heap) (wr r : ℕ), r < h.length →
      heapGet (heapLoop m cl k h wr).2 r = heapGet h r ∧
        h.length ≤ (heapLoop m cl k h wr).2.length := by
  intro k
  induction k with
  | zero => exact fun h wr r _ => ⟨rfl, le_refl _⟩
  | succ k ih =>
    intro h wr r hr
    unfold heapLoop
    cases hpred : predict_next_hour_enhanced (heapGet h wr) m cl with
    | error e => exact ⟨rfl, le_refl _⟩
    | ok pred =>
      dsimp only
      have hrc : r < (concatFrame h wr pred).2.length := by
        unfold concatFrame
        rw [length_heapAlloc]
        omega
      obtain ⟨hgt, hlt⟩ := truncFrame_frame hrc
      have hgc : heapGet (concatFrame h wr pred).2 r = heapGet h r :=
        heapGet_heapAlloc hr
      have hrt : r < (truncFrame (concatFrame h wr pred)).2.length := by
        omega
      obtain ⟨hgl, hll⟩ := ih (truncFrame (concatFrame h wr pred)).2
        (truncFrame (concatFrame h wr pred)).1 r hrt
      have hlc : h.length ≤ (concatFrame h wr pred).2.length := by
        unfold concatFrame
        rw [length_heapAlloc]
        omega
      rcases hrec : heapLoop m cl k (truncFrame (concatFrame h wr pred)).2
          (truncFrame (concatFrame h wr pred)).1 with ⟨res, h'⟩
      rw [hrec] at hgl hll
      dsimp only at hgl hll
      cases res with
      | error e =>
        dsimp only
        exact ⟨by rw [hgl, hgt, hgc], by omega⟩
      | ok rest =>
        dsimp only
        exact ⟨by rw [hgl, hgt, hgc], by omega⟩

/-- C8: a 6-hour forecast call never mutates the caller's DataFrame:
every extension and truncation happens on the call-scoped working copy
(and on the fresh frames derived from it), so after the call the frame
the caller passed in is unchanged in the store.  The single-step
predictor only reads its frame by construction (it takes the frame's
value). -/
theorem claim8_caller_frame_unchanged (m : ModelData) (cl : String)
    (h0 : Heap) (r : ℕ) (hr : r < h0.length) :
    heapGet (predict_next_6_hours_heap m cl h0 r).2 r = heapGet h0 r := by
  unfold predict_next_6_hours_heap
  have hcopy : heapGet (copyFrame h0 r).2 r = heapGet h0 r :=
    heapGet_heapAlloc hr
  have hlcopy : (copyFrame h0 r).2.length = h0.length + 1 :=
    length_heapAlloc _ _
  have hrefcopy : (copyFrame h0 r).1 = h0.length := rfl
  have hparse : heapGet (parseTimestampCol (copyFrame h0 r)).2 r =
      heapGet (copyFrame h0 r).2 r := by
    unfold parseTimestampCol
    exact heapGet_heapSet_ne (by omega)
  have hlparse : (parseTimestampCol (copyFrame h0 r)).2.length =
      (copyFrame h0 r).2.length := by
    unfold parseTimestampCol heapSet
    exact List.length_set _ _ _
  have hsort : heapGet (sortFrame (parseTimestampCol (copyFrame h0 r))).2 r =
      heapGet (parseTimestampCol (copyFrame h0 r)).2 r :=
    heapGet_heapAlloc (by omega)
  have hlsort : (sortFrame (parseTimestampCol (copyFrame h0 r))).2.length =
      (parseTimestampCol (copyFrame h0 r)).2.length + 1 :=
    length_heapAlloc _ _
  obtain ⟨hg, _⟩ := heapLoop_frame m cl 6
    (sortFrame (parseTimestampCol (copyFrame h0 r))).2
    (sortFrame (parseTimestampCol (copyFrame h0 r))).1 r (by omega)
  rw [hg, hsort, hparse, hcopy]

/-- C1 counterexample: in the spec's end-to-end scenario (window
`[(t-2h,5),(t-1h,7),(t,6)]`, width 2 for "90%", constant point-predictor
6.5) the first step produces `(6, 4, 8)`, not the claimed `(7, 5, 9)`:
Python's `round` is round-half-to-even, so `round(6.5) = 6`,
`round(4.5) = 4` and `round(8.5) = 8`. -/
theorem claim1_counterexample :
    stepOne (predict_next_6_hours scenarioWindow scenarioModel "90%") =
        some (6, 4, 8) ∧
      stepOne (predict_next_6_hours scenarioWindow scenarioModel "90%") ≠
        some (7, 5, 9) := by
  constructor
  · decide
  · decide

/-- C1 (amended): in the spec's end-to-end scenario the first step has
`predicted_count = 6`, `lower_bound = 4`, `upper_bound = 8`, and the
working window is extended with `(t+1h, 6)` before step 2; in general
the single-step predictor rounds the clamped raw prediction to the
nearest integer with ties to even for `predicted_count` while using the
unrounded raw value for the interval bounds. -/
theorem claim1_amended :
    stepOne (predict_next_6_hours scenarioWindow scenarioModel "90%") =
        some (6, 4, 8) ∧
      Except.map (appendPrediction (sortByTimestamp scenarioWindow))
          (predict_next_hour_enhanced (sortByTimestamp scenarioWindow)
            scenarioModel "90%") =
        .ok (scenarioWindow ++ [⟨3, 6⟩]) ∧
      ∀ (w : List Row) (m : ModelData) (cl : String) (p : ForecastPoint),
        predict_next_hour_enhanced w m cl = .ok p →
        ∃ xs wd, m.prediction_intervals.lookup cl = some wd ∧
          p.predicted_arrivals = pyRound (max 0 (m.predict xs)) ∧
          p.lower_bound = max 0 (pyRound (max 0 (m.predict xs) - wd)) ∧
          p.upper_bound = pyRound (max 0 (m.predict xs) + wd) := by
  refine ⟨by decide, by decide, ?_⟩
  intro w m cl p hp
  obtain ⟨xs, wd, _, hlk, hpeq⟩ := predict_ok_inv hp
  exact ⟨xs, wd, hlk,
    by rw [hpeq, mkForecastPoint_predicted],
    by rw [hpeq, mkForecastPoint_lower],
    by rw [hpeq, mkForecastPoint_upper]⟩

/-- C2 counterexample: with a zero base error (and empty context tables)
the blended error equals `0.85 × base` exactly, yet the classifier
returns "low", not the claimed "medium": both strict comparisons fail at
zero. -/
theorem claim2_counterexample :
    (get_confidence_level 12 5 2 ⟨[], [], []⟩ 0).2 = 0.85 * 0 ∧
      (get_confidence_level 12 5 2 ⟨[], [], []⟩ 0).1 = "low" ∧
      "low" ≠ "medium" := by
  refine ⟨by decide, by decide, by decide⟩

/-- C2 (amended): for a positive base error the classifier blends the
three fallback lookups by arithmetic mean and classifies with strict
thresholds; "high" iff blended < 0.85×base, "medium" iff
0.85×base ≤ blended < 1.15×base, "low" iff 1.15×base ≤ blended; in
particular blended = 0.85×base gives "medium" and blended = 1.15×base
gives "low". -/
theorem claim2_confidence_classifier (hour load dow : ℤ) (ctx : Contexts)
    (base : ℚ) (hb : 0 < base) :
    (get_confidence_level hour load dow ctx base).2 =
        ((ctx.hour.lookup hour).getD base +
          (ctx.load_level.lookup
            (if load ≤ 3 then "low" else if load ≤ 6 then "medium"
             else if load ≤ 10 then "high" else "extreme")).getD base +
          (ctx.day_of_week.lookup dow).getD base) / 3 ∧
      ((get_confidence_level hour load dow ctx base).1 = "high" ↔
        (get_confidence_level hour load dow ctx base).2 < 0.85 * base) ∧
      ((get_confidence_level hour load dow ctx base).1 = "medium" ↔
        0.85 * base ≤ (get_confidence_level hour load dow ctx base).2 ∧
          (get_confidence_level hour load dow ctx base).2 < 1.15 * base) ∧
      ((get_confidence_level hour load dow ctx base).1 = "low" ↔
        1.15 * base ≤ (get_confidence_level hour load dow ctx base).2) ∧
      ((get_confidence_level hour load dow ctx base).2 = 0.85 * base →
        (get_confidence_level hour load dow ctx base).1 = "medium") ∧
      ((get_confidence_level hour load dow ctx base).2 = 1.15 * base →
        (get_confidence_level hour load dow ctx base).1 = "low") := by
  simp only [get_confidence_level]
  set cat := (if load ≤ 3 then "low" else if load ≤ 6 then "medium"
    else if load ≤ 10 then "high" else "extreme") with hcat
  set B := ((ctx.hour.lookup hour).getD base +
    (ctx.load_level.lookup cat).getD base +
    (ctx.day_of_week.lookup dow).getD base) / 3 with hB
  split_ifs with h1 h2
  · dsimp only
    refine ⟨rfl, ⟨fun _ => by linarith, fun _ => rfl⟩, ?_, ?_, ?_, ?_⟩
    · exact ⟨fun h => absurd h (by decide),
        fun hc => False.elim (by linarith [hc.1])⟩
    · exact ⟨fun h => absurd h (by decide),
        fun hge => False.elim (by linarith)⟩
    · intro he
      rw [he] at h1
      exact False.elim (by linarith)
    · intro he
      rw [he] at h1
      exact False.elim (by linarith)
  · rw [not_lt] at h1
    dsimp only
    refine ⟨rfl, ?_, ⟨fun _ => ⟨by linarith, by linarith⟩, fun _ => rfl⟩,
      ?_, fun _ => rfl, ?_⟩
    · exact ⟨fun h => absurd h (by decide),
        fun hlt => False.elim (by linarith)⟩
    · exact ⟨fun h => absurd h (by decide),
        fun hge => False.elim (by linarith)⟩
    · intro he
      rw [he] at h2
      exact False.elim (by linarith)
  · rw [not_lt] at h1 h2
    dsimp only
    refine ⟨rfl, ?_, ?_, ⟨fun _ => by linarith, fun _ => rfl⟩, ?_,
      fun _ => rfl⟩
    · exact ⟨fun h => absurd h (by decide),
        fun hlt => False.elim (by linarith)⟩
    · exact ⟨fun h => absurd h (by decide),
        fun hc => False.elim (by linarith [hc.2])⟩
    · intro he
      rw [he] at h2
      exact False.elim (by linarith)

/-! ## Witnesses -/

theorem claim2_witness :
    (get_confidence_level 0 0 0 boundaryContexts 1).1 = "medium" :=
  (claim2_confidence_classifier 0 0 0 boundaryContexts 1
    (by norm_num)).2.2.2.2.1 (by decide)

theorem claim3_witness :
    ∃ ps, predict_next_6_hours scenarioWindow scenarioModel "90%" =
        .ok ps ∧ ps.length = 6 ∧ ∀ i (hi : i < ps.length),
          (ps.get ⟨i, hi⟩).timestamp =
            lastTimestamp scenarioWindow + (i + 1) :=
  claim3_six_hourly_points scenarioWindow scenarioModel "90%" 2
    (by decide) (by decide) (by decide) (by decide)

theorem claim4_witness :
    0 ≤ (scenarioPoint 3).lower_bound ∧
      (scenarioPoint 3).lower_bound ≤ (scenarioPoint 3).predicted_arrivals ∧
      (scenarioPoint 3).predicted_arrivals ≤ (scenarioPoint 3).upper_bound :=
  claim4_interval_ordering scenarioWindow scenarioModel "90%"
    scenarioPoints (scenarioPoint 3) (by decide) (by decide) (by decide)

theorem claim5_witness :
    (predict_next_hour_enhanced scenarioWindow threeLabelModel "80%" =
        .error (.unknownConfidenceInterval "80%")) ↔
      threeLabelModel.prediction_intervals.lookup "80%" = none :=
  claim5_unknown_interval_iff scenarioWindow threeLabelModel "80%"
    (by decide) (by decide)

theorem claim6_witness :
    predict_next_6_hours shortWindow scenarioModel "90%" =
        .error .dataInsufficient ∧
      ∀ ps, predict_next_6_hours shortWindow scenarioModel "90%" ≠
        .ok ps :=
  claim6_data_insufficient shortWindow scenarioModel "90%" (by decide)

theorem claim7_witness :
    (buildFeatures fiveWindow sameHourModel).lookup "same_hour_yesterday" =
      some 6 :=
  (claim7_fallback_mean fiveWindow sameHourModel (by decide) (by decide)
    (by decide)).trans (by decide)

theorem claim8_witness :
    heapGet (predict_next_6_hours_heap scenarioModel "90%"
        [scenarioWindow] 0).2 0 =
      heapGet [scenarioWindow] 0 :=
  claim8_caller_frame_unchanged scenarioModel "90%" [scenarioWindow] 0
    (by decide)

theorem claim9_witness :
    predict_next_6_hours shuffledWindow scenarioModel "90%" =
      predict_next_6_hours scenarioWindow scenarioModel "90%" :=
  claim9_permutation_invariant shuffledWindow scenarioWindow scenarioModel
    "90%" (by decide)
    (by unfold shuffledWindow scenarioWindow
        exact List.Perm.swap (⟨0, 5⟩ : Row) (⟨1, 7⟩ : Row)
          [(⟨2, 6⟩ : Row)])
    (by decide)

theorem claim10_witness :
    (buildFeatures hourlyWindow24 sameHourModel).lookup
        "same_hour_yesterday" = some 0 ∧
      (hourlyWindow24.map Row.timestamp).getD
          (hourlyWindow24.length - 24) 0 =
        nextTimestampOf hourlyWindow24 - 24 :=
  ⟨((claim10_same_hour_positional hourlyWindow24 sameHourModel (by decide)
      (by decide)).1).trans (by decide),
    (claim10_same_hour_positional hourlyWindow24 sameHourModel (by decide)
      (by decide)).2 (by decide)⟩

end LoadPrediction
